import Mathlib

/-!
Verification development for the AutoTubeFlow setup-wizard flows
(`src/ai/flows/sheet-flows.ts`, `src/ai/flows/auth-flows.ts`).

The TypeScript flows are shallowly embedded: every external service
(Google Sheets, Drive, YouTube metadata, the generative rewrite, GitHub)
is an explicit oracle argument, and each flow returns a structured result
together with a trace of the external calls it performed, in order.
-/

namespace AutoTubeFlow

/-! ### JS regular-expression character classes

The video-id pattern in `sheet-flows.ts` is
`(?:youtube\.com\/(?:[^\/]+\/.+\/|(?:v|e(?:mbed)?)\/|.*[?&]v=|shorts\/)|youtu\.be\/)([^"&?\/\s]{11})`.
We embed the character classes with JavaScript semantics: `.` matches any
character except a line terminator, and `\s` is the JS whitespace set. -/

def jsDot (c : Char) : Bool :=
  !(c == '\n' || c == '\r' || c.toNat == 0x2028 || c.toNat == 0x2029)

def jsSpace (c : Char) : Bool :=
  c == ' ' || c == '\t' || c == '\n' || c == '\r' ||
  c.toNat == 0x0b || c.toNat == 0x0c ||
  c.toNat == 0xa0 || c.toNat == 0x1680 ||
  (0x2000 ≤ c.toNat && c.toNat ≤ 0x200a) ||
  c.toNat == 0x2028 || c.toNat == 0x2029 || c.toNat == 0x202f ||
  c.toNat == 0x205f || c.toNat == 0x3000 || c.toNat == 0xfeff

/-- the capture class `[^"&?\/\s]` -/
def idChar (c : Char) : Bool :=
  !(c == '"' || c == '&' || c == '?' || c == '/' || jsSpace c)

def notSlash (c : Char) : Bool := !(c == '/')

/-! ### A tiny backtracking regex matcher

Alternation tries the left branch first and the star is greedy
(longest first with backtracking), exactly as the JS engine behaves on
this pattern.  Stars appear only over character classes in the source
pattern, so `starCls` suffices and every construct is structurally
recursive. -/

inductive RE where
  | lit (s : List Char)
  | one (p : Char → Bool)
  | starCls (p : Char → Bool)
  | cat (a b : RE)
  | alt (a b : RE)

def leadsWith : List Char → List Char → Bool
  | [], _ => true
  | _ :: _, [] => false
  | a :: as, b :: bs => a == b && leadsWith as bs

/-- Greedy star over a character class, in continuation style: consume as
many class characters as possible, backtracking one at a time. -/
def tryCls (p : Char → Bool) : List Char → (List Char → Option (List Char)) → Option (List Char)
  | [], k => k []
  | c :: rest, k =>
    if p c then (tryCls p rest k) <|> k (c :: rest) else k (c :: rest)

def matchRE : RE → List Char → (List Char → Option (List Char)) → Option (List Char)
  | .lit s, cs, k => if leadsWith s cs then k (cs.drop s.length) else none
  | .one p, cs, k =>
    match cs with
    | [] => none
    | c :: rest => if p c then k rest else none
  | .starCls p, cs, k => tryCls p cs k
  | .cat a b, cs, k => matchRE a cs (fun rest => matchRE b rest k)
  | .alt a b, cs, k => (matchRE a cs k) <|> (matchRE b cs k)

/-- `x+` over a character class, as `x` then `x*`. -/
def plusCls (p : Char → Bool) : RE := .cat (.one p) (.starCls p)

/-- The part of the source pattern before the capturing group:
`(?:youtube\.com\/(?:[^\/]+\/.+\/|(?:v|e(?:mbed)?)\/|.*[?&]v=|shorts\/)|youtu\.be\/)`,
alternatives in source order. -/
def videoIdPattern : RE :=
  .alt
    (.cat (.lit "youtube.com/".toList)
      (.alt
        (.cat (plusCls notSlash)
          (.cat (.lit "/".toList) (.cat (plusCls jsDot) (.lit "/".toList))))
        (.alt
          (.cat (.alt (.lit "v".toList)
                      (.cat (.lit "e".toList) (.alt (.lit "mbed".toList) (.lit []))))
                (.lit "/".toList))
          (.alt
            (.cat (.starCls jsDot)
              (.cat (.one (fun c => c == '?' || c == '&')) (.lit "v=".toList)))
            (.lit "shorts/".toList)))))
    (.lit "youtu.be/".toList)

/-- The capturing group `([^"&?\/\s]{11})`: exactly 11 characters of the class. -/
def captureId (cs : List Char) : Option (List Char) :=
  let g := cs.take 11
  if g.length == 11 && g.all idChar then some g else none

def matchFrom (cs : List Char) : Option (List Char) :=
  matchRE videoIdPattern cs captureId

/-- Leftmost search: try a match at each start position in order, as
JS `String.prototype.match` does for a non-global regex. -/
def searchId : List Char → Option (List Char)
  | [] => matchFrom []
  | c :: rest => (matchFrom (c :: rest)) <|> searchId rest

/-- `extractVideoIdFromUrl` (sheet-flows.ts lines 134-138): first regex
match, returning capture group 1. -/
def extractVideoIdFromUrl (url : String) : Option String :=
  (searchId url.toList).map fun l => ⟨l⟩

/-! ### Canonicalization (sheet-flows.ts lines 209-212) -/

/-- JS `String.prototype.includes`: substring test. -/
def hasSub : List Char → List Char → Bool
  | n, [] => leadsWith n []
  | n, c :: rest => leadsWith n (c :: rest) || hasSub n rest

def strIncludes (hay needle : String) : Bool := hasSub needle.toList hay.toList

/-- `isShort = url.includes('/shorts/')` and the two canonical templates. -/
def canonicalVideoUrl (url vid : String) : String :=
  if strIncludes url "/shorts/" then "https://www.youtube.com/shorts/" ++ vid
  else "https://www.youtube.com/watch?v=" ++ vid

/-- Extraction followed by canonicalization, as `addUrlToSheet` performs
on its input before any sheet access. -/
def canonicalize (url : String) : Option String :=
  (extractVideoIdFromUrl url).map (canonicalVideoUrl url)

/-! ### Session data (src/lib/session.ts) -/

/-- The credential fields of `JWT['credentials']` that the flows consult. -/
structure GTokens where
  access_token : Option String := none
  refresh_token : Option String := none
  expiry_date : Option Int := none
deriving DecidableEq

structure SessionData where
  google_tokens : Option GTokens := none
  github_token : Option String := none
  sheet_id : Option String := none
  redirectUrl : Option String := none
deriving DecidableEq

/-! ### getGoogleApiClients (sheet-flows.ts lines 21-59)

The expiry test is `new Date() >= (auth.credentials.expiry_date || 0)`:
a missing expiry coerces to 0, so the token counts as expired whenever
the current epoch-milliseconds value is at least the stored expiry (or at
least 0 when none is stored). -/

structure GoogleCfg where
  clientId : Option String := none
  clientSecret : Option String := none

def tokenIsExpired (now : Int) (t : GTokens) : Bool :=
  decide (t.expiry_date.getD 0 ≤ now)

/-- Outcome of `getGoogleApiClients`: whether it returned clients (`ok`),
whether a refresh round trip was attempted, and the session it left behind. -/
structure ClientsOutcome where
  ok : Bool
  refreshAttempted : Bool
  sess : SessionData

/-- `getGoogleApiClients`, with the refresh round trip as an oracle
(`refreshResult = none` models `refreshAccessToken` throwing). -/
def getGoogleApiClients (cfg : GoogleCfg) (now : Int)
    (refreshResult : Option GTokens) (sess : SessionData) : ClientsOutcome :=
  match sess.google_tokens with
  | none => { ok := false, refreshAttempted := false, sess := sess }
  | some t =>
    if cfg.clientId.isNone || cfg.clientSecret.isNone then
      { ok := false, refreshAttempted := false, sess := sess }
    else if tokenIsExpired now t then
      match refreshResult with
      | some creds =>
        { ok := true, refreshAttempted := true
          sess := { sess with google_tokens := some creds } }
      | none =>
        { ok := false, refreshAttempted := true
          sess := { sess with google_tokens := none } }
    else
      { ok := true, refreshAttempted := false, sess := sess }

/-! ### addUrlToSheet (sheet-flows.ts lines 186-290)

External calls are oracles and the flow records the calls it makes, in
order, in a trace. -/

inductive Ev where
  | readColA
  | metaFetch (vid : String)
  | aiCall
  | appendRow (row : List String)
deriving DecidableEq

/-- Outcome of the generative rewrite call: it can throw, resolve with a
null output, or produce an optimized title/description pair. -/
inductive AIRes where
  | throws
  | nullOutput
  | output (optimizedTitle optimizedDescription : String)
deriving DecidableEq

structure VideoSnippet where
  title : Option String := none
  description : Option String := none
deriving DecidableEq

/-- Oracles for the external services `addUrlToSheet` touches:
`authFail = some detail` means `getGoogleApiClients` threw with that
detail (caught by the flow's outer catch), `colA` is the flattened
`Sheet1!A:A` read, `snippet` is `items[0]?.snippet` of the
`videos.list` call, `aiRes` the rewrite outcome. -/
structure SheetEnv where
  authFail : Option String := none
  colA : List String := []
  snippet : Option VideoSnippet := none
  aiRes : AIRes := .throws

structure FlowResult where
  success : Bool
  message : String
  trace : List Ev
deriving DecidableEq

def addUrlToSheet (env : SheetEnv) (sess : SessionData) (today : String)
    (url : String) : FlowResult :=
  match env.authFail with
  | some detail =>
    { success := false
      message := "An error occurred while adding the URL. Details: " ++ detail
      trace := [] }
  | none =>
    match sess.sheet_id with
    | none =>
      { success := false
        message := "Google Sheet not configured. Please start over."
        trace := [] }
    | some _ =>
      match extractVideoIdFromUrl url with
      | none =>
        { success := false
          message := "Could not extract a valid YouTube video ID from the URL."
          trace := [] }
      | some videoId =>
        let canonicalUrl := canonicalVideoUrl url videoId
        if env.colA.contains canonicalUrl then
          { success := false
            message := "This video URL is already in your Google Sheet."
            trace := [.readColA] }
        else
          match env.snippet with
          | none =>
            { success := false
              message := "Could not fetch video details from YouTube. Is the video public and the URL correct?"
              trace := [.readColA, .metaFetch videoId] }
          | some sn =>
            let originalTitle := sn.title.getD ""
            let originalDescription := sn.description.getD ""
            let finalTitle :=
              match env.aiRes with
              | .output t _ => t
              | _ => originalTitle
            let finalDescription :=
              match env.aiRes with
              | .output _ d => d
              | _ => originalDescription
            let newRow := [canonicalUrl, finalTitle, finalDescription, today, "FALSE", ""]
            { success := true
              message := "The video has been added to your Google Sheet for processing."
              trace := [.readColA, .metaFetch videoId, .aiCall, .appendRow newRow] }

/-- The rows appended during a run, in order. -/
def appendedRows (t : List Ev) : List (List String) :=
  t.filterMap fun e =>
    match e with
    | .appendRow r => some r
    | _ => none

/-! ### createSheet (sheet-flows.ts lines 62-132) -/

def SHEET_NAME : String := "AutoTubeFlow Tracker"

def REQUIRED_COLUMNS : List String :=
  ["Url", "Title", "Description", "DateAdded", "isProcessed", "VideoId"]

/-- A Drive file as the `files.list` search sees it. -/
structure GFile where
  id : String
  name : String
  trashed : Bool := false
deriving DecidableEq

/-- The Drive/Sheets backend state: the spreadsheet files, in the order
the `files.list` search returns them. -/
structure DriveState where
  files : List GFile
deriving DecidableEq

inductive SheetEv where
  | filesList
  | headerUpdate (sheetId : String) (header : List String)
  | createSpreadsheet (title : String) (header : List String)
deriving DecidableEq

structure CreateSheetResult where
  success : Bool
  sheetId : Option String := none
  message : Option String := none
  sess : SessionData
  drive : DriveState
  trace : List SheetEv
deriving DecidableEq

/-- The `files.list` query: non-trashed spreadsheets named `SHEET_NAME`. -/
def sheetSearch (st : DriveState) : List GFile :=
  st.files.filter fun f => f.name == SHEET_NAME && !f.trashed

/-- `createSheet`: find-or-create the tracking spreadsheet.  `freshId` is
the identifier the backend would assign to a newly created spreadsheet;
`fail = some detail` models any of the API calls throwing (the flow's
catch branch). -/
def createSheet (freshId : String) (fail : Option String) (sess : SessionData)
    (st : DriveState) : CreateSheetResult :=
  match fail with
  | some detail =>
    { success := false
      message := some ("An error occurred while managing the sheet. Details: " ++ detail)
      sess := sess, drive := st, trace := [] }
  | none =>
    match (sheetSearch st).head? with
    | some f =>
      { success := true, sheetId := some f.id
        sess := { sess with sheet_id := some f.id }
        drive := st
        trace := [.filesList, .headerUpdate f.id REQUIRED_COLUMNS] }
    | none =>
      { success := true, sheetId := some freshId
        sess := { sess with sheet_id := some freshId }
        drive := { files := st.files ++ [{ id := freshId, name := SHEET_NAME }] }
        trace := [.filesList, .createSpreadsheet SHEET_NAME REQUIRED_COLUMNS] }

/-! ### forkRepo (auth-flows.ts lines 109-205) -/

def GITHUB_REPO_OWNER : String := "labibrayan524"

def GITHUB_REPO_NAME : String := "yt-bot"

inductive ForkEv where
  | getAuthenticated
  | createFork (owner repo : String)
  | repoGet (owner repo : String)
  | delayMs (ms : Nat)
  | getRepoPublicKey (owner repo : String)
  | putSecret (owner repo name : String)
deriving DecidableEq

/-- Oracles for `forkRepo`: the authenticated login and, for each poll
attempt `i` (0-based), whether `repos.get` finds the fork. -/
structure ForkEnv where
  userLogin : String
  visible : Nat → Bool

structure ForkResult where
  success : Bool
  message : String
  trace : List ForkEv

/-- The names of the four secrets written, in insertion order of the
`secrets` object literal. -/
def SECRET_NAMES : List String :=
  ["YT_REFRESH_TOKEN", "GOOGLE_CLIENT_ID", "GOOGLE_CLIENT_SECRET", "SHEET_ID"]

/-- The fork-visibility poll (`for (let i = 0; i < 5; i++)`): each failed
attempt logs and waits 2000 ms; a successful `repos.get` breaks out. -/
def forkPoll (env : ForkEnv) : Nat → Nat → Bool × List ForkEv
  | _, 0 => (false, [])
  | i, fuel + 1 =>
    if env.visible i then
      (true, [.repoGet env.userLogin GITHUB_REPO_NAME])
    else
      let r := forkPoll env (i + 1) fuel
      (r.1, .repoGet env.userLogin GITHUB_REPO_NAME :: .delayMs 2000 :: r.2)

def forkRepo (env : ForkEnv) (sess : SessionData) : ForkResult :=
  match sess.github_token with
  | none =>
    { success := false
      message := "GitHub not connected. Please go back to the previous step."
      trace := [] }
  | some _ =>
    match sess.google_tokens with
    | none =>
      { success := false
        message := "Google account not fully connected. Please try reconnecting Google."
        trace := [] }
    | some gt =>
      match gt.refresh_token with
      | none =>
        { success := false
          message := "Google account not fully connected. Please try reconnecting Google."
          trace := [] }
      | some _ =>
        match sess.sheet_id with
        | none =>
          { success := false
            message := "Google Sheet ID not found. Please create the sheet first."
            trace := [] }
        | some _ =>
          let pre : List ForkEv :=
            [.getAuthenticated, .createFork GITHUB_REPO_OWNER GITHUB_REPO_NAME]
          let poll := forkPoll env 0 5
          if !poll.1 then
            { success := false
              message := "Could not confirm repository fork. Please check your GitHub account and try again."
              trace := pre ++ poll.2 }
          else
            { success := true
              message := "Repository forked and configured successfully!"
              trace := pre ++ poll.2 ++
                [.delayMs 1000, .getRepoPublicKey env.userLogin GITHUB_REPO_NAME] ++
                SECRET_NAMES.map (.putSecret env.userLogin GITHUB_REPO_NAME) }

/-- Is an event one of the `repos.get` poll calls? -/
def isRepoGet : ForkEv → Bool
  | .repoGet _ _ => true
  | _ => false

/-- Is an event a secret write or the public-key fetch that precedes it? -/
def isSecretProvisioning : ForkEv → Bool
  | .getRepoPublicKey _ _ => true
  | .putSecret _ _ _ => true
  | _ => false

/-! ### Authorization-URL construction (auth-flows.ts lines 21-106) -/

def GOOGLE_SCOPES : List String :=
  ["https://www.googleapis.com/auth/drive.file",
   "https://www.googleapis.com/auth/spreadsheets",
   "https://www.googleapis.com/auth/youtube.readonly",
   "https://www.googleapis.com/auth/youtube.upload"]

/-- One `application/x-www-form-urlencoded` character, as
`URLSearchParams.toString()` produces it (ASCII inputs). -/
def formEncodeChar (c : Char) : List Char :=
  if c.isAlphanum || c == '*' || c == '-' || c == '.' || c == '_' then [c]
  else if c == ' ' then ['+']
  else
    let n := c.toNat
    let hex := fun (d : Nat) => if d < 10 then Char.ofNat (48 + d) else Char.ofNat (55 + d)
    ['%', hex (n / 16 % 16), hex (n % 16)]

def formEncode (s : String) : String :=
  ⟨s.toList.flatMap formEncodeChar⟩

/-- `new URLSearchParams({...}).toString()`: `k=v` pairs joined by `&`,
keys and values form-encoded, insertion order preserved. -/
def urlSearchParams (ps : List (String × String)) : String :=
  String.intercalate "&" (ps.map fun p => formEncode p.1 ++ "=" ++ formEncode p.2)

structure GithubCfg where
  clientId : Option String := none
  baseUrl : Option String := none

/-- `getGithubAuthUrl`: builds the authorize URL inline; `now` is
`new Date().getTime()`, embedded as the `state` parameter. -/
def getGithubAuthUrl (cfg : GithubCfg) (now : Nat) (sess : SessionData)
    (originalUrl : String) : Except String (String × SessionData) :=
  match cfg.clientId with
  | none => .error "GITHUB_CLIENT_ID is not set in environment variables."
  | some cid =>
    match cfg.baseUrl with
    | none => .error "NEXT_PUBLIC_BASE_URL environment variable is not set."
    | some base =>
      let sess2 := { sess with redirectUrl := some originalUrl }
      let redirectUri := base ++ "/api/auth/github/callback"
      let q := urlSearchParams
        [("client_id", cid), ("redirect_uri", redirectUri),
         ("scope", "repo,admin:repo_hook"), ("state", toString now)]
      .ok ("https://github.com/login/oauth/authorize?" ++ q, sess2)

/-- The argument record the flow passes to the third-party
`generateAuthUrl`.  The SDK call itself is outside this repository; per
the spec it is deterministic URL construction over these inputs, so the
record captures everything the resulting URL can depend on. -/
structure GoogleAuthRequest where
  clientId : String
  redirectUri : String
  access_type : String
  scope : List String
  prompt : String
deriving DecidableEq

structure GoogleAuthCfg where
  clientId : Option String := none
  clientSecret : Option String := none
  baseUrl : Option String := none

/-- `getGoogleAuthUrl` together with `getGoogleOAuth2Client`: after the
configuration checks, the flow calls `generateAuthUrl` with fixed
`access_type`, the fixed scope list and fixed `prompt`, and stores
`originalUrl` in the session. -/
def getGoogleAuthUrl (cfg : GoogleAuthCfg) (sess : SessionData)
    (originalUrl : String) : Except String (GoogleAuthRequest × SessionData) :=
  match cfg.baseUrl with
  | none => .error "NEXT_PUBLIC_BASE_URL environment variable is not set."
  | some base =>
    match cfg.clientId with
    | none => .error "GOOGLE_CLIENT_ID environment variable is not set."
    | some cid =>
      match cfg.clientSecret with
      | none => .error "GOOGLE_CLIENT_SECRET environment variable is not set."
      | some _ =>
        let req : GoogleAuthRequest :=
          { clientId := cid
            redirectUri := base ++ "/api/auth/google/callback"
            access_type := "offline"
            scope := GOOGLE_SCOPES
            prompt := "consent" }
        .ok (req, { sess with redirectUrl := some originalUrl })

/-! ### Claim theorems -/

/-- C1 (counterexample): the shorts form and the short-link form of the
same 11-character identifier do NOT canonicalize to the same string:
`addUrlToSheet` keeps a separate canonical shape for URLs containing
`/shorts/`. -/
theorem claim1_counterexample :
    extractVideoIdFromUrl "https://youtu.be/dQw4w9WgXcQ" = some "dQw4w9WgXcQ" ∧
    extractVideoIdFromUrl "https://www.youtube.com/shorts/dQw4w9WgXcQ" = some "dQw4w9WgXcQ" ∧
    canonicalize "https://youtu.be/dQw4w9WgXcQ" ≠
      canonicalize "https://www.youtube.com/shorts/dQw4w9WgXcQ" := by
  refine ⟨rfl, rfl, ?_⟩
  decide

/-- C1 (amended): `addUrlToSheet` normalizes every recognized URL to one
of exactly two canonical templates, decided by whether the URL contains
the substring `/shorts/`: any two recognized URLs referencing the same
identifier and agreeing on that substring test canonicalize to the same
string, namely the shorts template or the watch template over the id. -/
theorem claim1_two_canonical_forms :
    ∀ u1 u2 v : String,
      extractVideoIdFromUrl u1 = some v →
      extractVideoIdFromUrl u2 = some v →
      strIncludes u1 "/shorts/" = strIncludes u2 "/shorts/" →
      canonicalize u1 = canonicalize u2 ∧
      canonicalize u1 =
        some (if strIncludes u1 "/shorts/" then "https://www.youtube.com/shorts/" ++ v
              else "https://www.youtube.com/watch?v=" ++ v) := by
  intro u1 u2 v h1 h2 h3
  have e1 : canonicalize u1 = some (canonicalVideoUrl u1 v) := by
    simp [canonicalize, h1]
  have e2 : canonicalize u2 = some (canonicalVideoUrl u2 v) := by
    simp [canonicalize, h2]
  refine ⟨?_, ?_⟩
  · rw [e1, e2]
    simp only [canonicalVideoUrl, h3]
  · rw [e1]
    simp only [canonicalVideoUrl]

theorem claim1_two_canonical_forms_witness :
    extractVideoIdFromUrl "https://youtu.be/dQw4w9WgXcQ" = some "dQw4w9WgXcQ" ∧
    extractVideoIdFromUrl "https://www.youtube.com/watch?v=dQw4w9WgXcQ" = some "dQw4w9WgXcQ" ∧
    canonicalize "https://youtu.be/dQw4w9WgXcQ" =
      canonicalize "https://www.youtube.com/watch?v=dQw4w9WgXcQ" :=
  ⟨rfl, rfl,
    (claim1_two_canonical_forms "https://youtu.be/dQw4w9WgXcQ"
      "https://www.youtube.com/watch?v=dQw4w9WgXcQ" "dQw4w9WgXcQ" rfl rfl rfl).1⟩

/-- C2: when the canonical URL is already in column A, `addUrlToSheet`
rejects as a duplicate with only the column read performed (no append,
no metadata fetch, no rewrite call); and in every run the column read is
the head of the trace whenever a metadata fetch or a rewrite call occurs,
i.e. the duplicate check comes first. -/
theorem claim2_duplicate_rejected_before_external_calls :
    (∀ (env : SheetEnv) (sess : SessionData) (today url sid vid : String),
      env.authFail = none → sess.sheet_id = some sid →
      extractVideoIdFromUrl url = some vid →
      env.colA.contains (canonicalVideoUrl url vid) = true →
      (addUrlToSheet env sess today url).success = false ∧
      (addUrlToSheet env sess today url).message =
        "This video URL is already in your Google Sheet." ∧
      (addUrlToSheet env sess today url).trace = [Ev.readColA]) ∧
    (∀ (env : SheetEnv) (sess : SessionData) (today url : String),
      ((∃ v, Ev.metaFetch v ∈ (addUrlToSheet env sess today url).trace) ∨
        Ev.aiCall ∈ (addUrlToSheet env sess today url).trace) →
      (addUrlToSheet env sess today url).trace.head? = some Ev.readColA) := by
  constructor
  · intro env sess today url sid vid hauth hsid hex hdup
    obtain ⟨af, colA, sn, ai⟩ := env
    obtain ⟨g, gh, si, ru⟩ := sess
    dsimp only at hauth hsid hdup
    subst hauth hsid
    have hmem : canonicalVideoUrl url vid ∈ colA := by simpa using hdup
    simp [addUrlToSheet, hex, hmem]
  · intro env sess today url h
    obtain ⟨af, colA, sn, ai⟩ := env
    obtain ⟨g, gh, si, ru⟩ := sess
    cases af with
    | some d => simp [addUrlToSheet] at h
    | none =>
      cases si with
      | none => simp [addUrlToSheet] at h
      | some sid =>
        cases hex : extractVideoIdFromUrl url with
        | none => simp [addUrlToSheet, hex] at h
        | some vid =>
          by_cases hmem : canonicalVideoUrl url vid ∈ colA
          · simp [addUrlToSheet, hex, hmem]
          · cases sn with
            | none => simp [addUrlToSheet, hex, hmem]
            | some s => simp [addUrlToSheet, hex, hmem]

theorem claim2_witness :
    ({ colA := ["https://www.youtube.com/watch?v=dQw4w9WgXcQ"] } : SheetEnv).colA.contains
        (canonicalVideoUrl "https://youtu.be/dQw4w9WgXcQ" "dQw4w9WgXcQ") = true ∧
    (addUrlToSheet { colA := ["https://www.youtube.com/watch?v=dQw4w9WgXcQ"] }
        { sheet_id := some "S" } "2026-10-11" "https://youtu.be/dQw4w9WgXcQ").success = false ∧
    (addUrlToSheet { colA := ["https://www.youtube.com/watch?v=dQw4w9WgXcQ"] }
        { sheet_id := some "S" } "2026-10-11" "https://youtu.be/dQw4w9WgXcQ").message =
      "This video URL is already in your Google Sheet." ∧
    (addUrlToSheet { colA := ["https://www.youtube.com/watch?v=dQw4w9WgXcQ"] }
        { sheet_id := some "S" } "2026-10-11" "https://youtu.be/dQw4w9WgXcQ").trace = [Ev.readColA] :=
  ⟨by decide,
    (claim2_duplicate_rejected_before_external_calls.1 _ _ "2026-10-11"
      "https://youtu.be/dQw4w9WgXcQ" "S" "dQw4w9WgXcQ" rfl rfl rfl (by decide))⟩

/-- C3: every successful `addUrlToSheet` run appends exactly one row
`[canonicalUrl, title, description, today, "FALSE", ""]` (the VideoId
cell is initially blank); for input `https://youtu.be/dQw4w9WgXcQ` the
canonical Url cell is `https://www.youtube.com/watch?v=dQw4w9WgXcQ`,
which carries the 11-character identifier `dQw4w9WgXcQ`. -/
theorem claim3_success_appends_one_row :
    (∀ (env : SheetEnv) (sess : SessionData) (today url : String),
      (addUrlToSheet env sess today url).success = true →
      ∃ vid ft fd, extractVideoIdFromUrl url = some vid ∧
        appendedRows (addUrlToSheet env sess today url).trace =
          [[canonicalVideoUrl url vid, ft, fd, today, "FALSE", ""]]) ∧
    canonicalize "https://youtu.be/dQw4w9WgXcQ" =
      some "https://www.youtube.com/watch?v=dQw4w9WgXcQ" ∧
    strIncludes "https://www.youtube.com/watch?v=dQw4w9WgXcQ" "dQw4w9WgXcQ" = true := by
  refine ⟨?_, rfl, by decide⟩
  intro env sess today url h
  obtain ⟨af, colA, sn, ai⟩ := env
  obtain ⟨g, gh, si, ru⟩ := sess
  cases af with
  | some d => simp [addUrlToSheet] at h
  | none =>
    cases si with
    | none => simp [addUrlToSheet] at h
    | some sid =>
      cases hex : extractVideoIdFromUrl url with
      | none => simp [addUrlToSheet, hex] at h
      | some vid =>
        by_cases hmem : canonicalVideoUrl url vid ∈ colA
        · simp [addUrlToSheet, hex, hmem] at h
        · cases sn with
          | none => simp [addUrlToSheet, hex, hmem] at h
          | some s =>
            cases ai with
            | throws =>
              exact ⟨vid, s.title.getD "", s.description.getD "", rfl,
                by simp [addUrlToSheet, hex, hmem, appendedRows]⟩
            | nullOutput =>
              exact ⟨vid, s.title.getD "", s.description.getD "", rfl,
                by simp [addUrlToSheet, hex, hmem, appendedRows]⟩
            | output t d =>
              exact ⟨vid, t, d, rfl,
                by simp [addUrlToSheet, hex, hmem, appendedRows]⟩

theorem claim3_witness :
    (addUrlToSheet { snippet := some { title := some "T", description := some "D" } }
        { sheet_id := some "S" } "2026-10-11" "https://youtu.be/dQw4w9WgXcQ").success = true ∧
    ∃ vid ft fd,
      extractVideoIdFromUrl "https://youtu.be/dQw4w9WgXcQ" = some vid ∧
      appendedRows (addUrlToSheet { snippet := some { title := some "T", description := some "D" } }
          { sheet_id := some "S" } "2026-10-11" "https://youtu.be/dQw4w9WgXcQ").trace =
        [[canonicalVideoUrl "https://youtu.be/dQw4w9WgXcQ" vid, ft, fd, "2026-10-11", "FALSE", ""]] :=
  ⟨by decide,
    claim3_success_appends_one_row.1
      { snippet := some { title := some "T", description := some "D" } }
      { sheet_id := some "S" } "2026-10-11" "https://youtu.be/dQw4w9WgXcQ" (by decide)⟩

/-- C4: when the generative rewrite throws or resolves with a null
output, `addUrlToSheet` still succeeds and the appended row carries the
original title and description unchanged; the rewrite failure does not
appear in the returned message. -/
theorem claim4_rewrite_failure_falls_back :
    ∀ (env : SheetEnv) (sess : SessionData) (today url sid vid : String)
      (sn : VideoSnippet),
      env.authFail = none → sess.sheet_id = some sid →
      extractVideoIdFromUrl url = some vid →
      canonicalVideoUrl url vid ∉ env.colA →
      env.snippet = some sn →
      (env.aiRes = AIRes.throws ∨ env.aiRes = AIRes.nullOutput) →
      (addUrlToSheet env sess today url).success = true ∧
      (addUrlToSheet env sess today url).message =
        "The video has been added to your Google Sheet for processing." ∧
      appendedRows (addUrlToSheet env sess today url).trace =
        [[canonicalVideoUrl url vid, sn.title.getD "", sn.description.getD "",
          today, "FALSE", ""]] := by
  intro env sess today url sid vid sn hauth hsid hex hmem hsn hai
  obtain ⟨af, colA, osn, ai⟩ := env
  obtain ⟨g, gh, si, ru⟩ := sess
  dsimp only at hauth hsid hmem hsn hai
  subst hauth hsid hsn
  rcases hai with hai | hai <;> subst hai <;>
    simp [addUrlToSheet, hex, hmem, appendedRows]

theorem claim4_witness :
    ((({ snippet := some { title := some "Orig title", description := some "Orig desc" },
          aiRes := AIRes.throws } : SheetEnv)).aiRes = AIRes.throws ∨
      (({ snippet := some { title := some "Orig title", description := some "Orig desc" },
          aiRes := AIRes.throws } : SheetEnv)).aiRes = AIRes.nullOutput) ∧
    (addUrlToSheet
        { snippet := some { title := some "Orig title", description := some "Orig desc" },
          aiRes := AIRes.throws }
        { sheet_id := some "S" } "2026-10-11"
        "https://www.youtube.com/watch?v=dQw4w9WgXcQ").success = true ∧
    appendedRows (addUrlToSheet
        { snippet := some { title := some "Orig title", description := some "Orig desc" },
          aiRes := AIRes.throws }
        { sheet_id := some "S" } "2026-10-11"
        "https://www.youtube.com/watch?v=dQw4w9WgXcQ").trace =
      [["https://www.youtube.com/watch?v=dQw4w9WgXcQ", "Orig title", "Orig desc",
        "2026-10-11", "FALSE", ""]] := by
  have h := claim4_rewrite_failure_falls_back
    { snippet := some { title := some "Orig title", description := some "Orig desc" },
      aiRes := AIRes.throws }
    { sheet_id := some "S" } "2026-10-11"
    "https://www.youtube.com/watch?v=dQw4w9WgXcQ" "S" "dQw4w9WgXcQ"
    { title := some "Orig title", description := some "Orig desc" }
    rfl rfl (by decide) (by decide) rfl (Or.inl rfl)
  exact ⟨Or.inl rfl, h.1, by rw [h.2.2]; decide⟩

/-- C7: a URL with no extractable 11-character identifier makes
`addUrlToSheet` fail with the invalid-input message and an empty call
trace — no column read, no append, no metadata fetch, no rewrite call;
`https://example.com/video` is such a URL. -/
theorem claim7_invalid_url_no_external_calls :
    (∀ (env : SheetEnv) (sess : SessionData) (today url sid : String),
      env.authFail = none → sess.sheet_id = some sid →
      extractVideoIdFromUrl url = none →
      (addUrlToSheet env sess today url).success = false ∧
      (addUrlToSheet env sess today url).message =
        "Could not extract a valid YouTube video ID from the URL." ∧
      (addUrlToSheet env sess today url).trace = []) ∧
    extractVideoIdFromUrl "https://example.com/video" = none := by
  refine ⟨?_, rfl⟩
  intro env sess today url sid hauth hsid hex
  obtain ⟨af, colA, sn, ai⟩ := env
  obtain ⟨g, gh, si, ru⟩ := sess
  dsimp only at hauth hsid
  subst hauth hsid
  simp [addUrlToSheet, hex]

theorem claim7_witness :
    (addUrlToSheet {} { sheet_id := some "S" } "2026-10-11"
        "https://example.com/video").success = false ∧
    (addUrlToSheet {} { sheet_id := some "S" } "2026-10-11"
        "https://example.com/video").message =
      "Could not extract a valid YouTube video ID from the URL." ∧
    (addUrlToSheet {} { sheet_id := some "S" } "2026-10-11"
        "https://example.com/video").trace = [] :=
  claim7_invalid_url_no_external_calls.1 {} { sheet_id := some "S" }
    "2026-10-11" "https://example.com/video" "S" rfl rfl rfl

/-- C5: `forkRepo` checks its three session prerequisites before any
network call: a missing GitHub token, a missing Google refresh token, or
a missing sheet id each yield an immediate failure whose message names
that prerequisite, with an empty call trace. -/
theorem claim5_preconditions_fail_fast :
    ∀ (env : ForkEnv) (sess : SessionData),
      (sess.github_token = none →
        (forkRepo env sess).success = false ∧
        (forkRepo env sess).message =
          "GitHub not connected. Please go back to the previous step." ∧
        (forkRepo env sess).trace = []) ∧
      (∀ tok, sess.github_token = some tok →
        (sess.google_tokens = none ∨
          ∃ gt, sess.google_tokens = some gt ∧ gt.refresh_token = none) →
        (forkRepo env sess).success = false ∧
        (forkRepo env sess).message =
          "Google account not fully connected. Please try reconnecting Google." ∧
        (forkRepo env sess).trace = []) ∧
      (∀ tok gt rt, sess.github_token = some tok →
        sess.google_tokens = some gt → gt.refresh_token = some rt →
        sess.sheet_id = none →
        (forkRepo env sess).success = false ∧
        (forkRepo env sess).message =
          "Google Sheet ID not found. Please create the sheet first." ∧
        (forkRepo env sess).trace = []) := by
  intro env sess
  obtain ⟨g, gh, si, ru⟩ := sess
  refine ⟨?_, ?_, ?_⟩
  · intro h
    dsimp only at h
    subst h
    simp [forkRepo]
  · intro tok h hg
    dsimp only at h
    subst h
    rcases hg with hg | ⟨gt, hg, hrt⟩
    · dsimp only at hg
      subst hg
      simp [forkRepo]
    · dsimp only at hg
      subst hg
      simp [forkRepo, hrt]
  · intro tok gt rt h hg hrt hs
    dsimp only at h hg hs
    subst h hg hs
    simp [forkRepo, hrt]

theorem claim5_witness :
    (forkRepo { userLogin := "octocat", visible := fun _ => true }
        { google_tokens := some { refresh_token := some "R" },
          github_token := some "tok" }).success = false ∧
    (forkRepo { userLogin := "octocat", visible := fun _ => true }
        { google_tokens := some { refresh_token := some "R" },
          github_token := some "tok" }).message =
      "Google Sheet ID not found. Please create the sheet first." ∧
    (forkRepo { userLogin := "octocat", visible := fun _ => true }
        { google_tokens := some { refresh_token := some "R" },
          github_token := some "tok" }).trace = [] :=
  (claim5_preconditions_fail_fast
      { userLogin := "octocat", visible := fun _ => true }
      { google_tokens := some { refresh_token := some "R" },
        github_token := some "tok" }).2.2
    "tok" { refresh_token := some "R" } "R" rfl rfl rfl rfl

/-- In every run the poll body contributes at most `fuel` `repos.get`
calls. -/
theorem forkPoll_repoGet_le (env : ForkEnv) :
    ∀ fuel i, ((forkPoll env i fuel).2.filter isRepoGet).length ≤ fuel := by
  intro fuel
  induction fuel with
  | zero => intro i; simp [forkPoll]
  | succ n ih =>
    intro i
    cases h : env.visible i with
    | true => simp [forkPoll, h, isRepoGet]
    | false =>
      have hrec := ih (i + 1)
      simp [forkPoll, h, isRepoGet, List.filter_cons]
      omega

/-- C6: with all prerequisites present and the fork never becoming
visible, `forkRepo` performs exactly 5 `repos.get` poll attempts with a
2000 ms delay after each failed one, then returns the structured
"Could not confirm" failure without fetching the repository public key or
writing any secret; and in every run at most 5 poll attempts occur. -/
theorem claim6_poll_exhaustion :
    (∀ (env : ForkEnv) (sess : SessionData) (tok rt sid : String) (gt : GTokens),
      sess.github_token = some tok → sess.google_tokens = some gt →
      gt.refresh_token = some rt → sess.sheet_id = some sid →
      (∀ i, i < 5 → env.visible i = false) →
      (forkRepo env sess).success = false ∧
      (forkRepo env sess).message =
        "Could not confirm repository fork. Please check your GitHub account and try again." ∧
      (forkRepo env sess).trace =
        [ForkEv.getAuthenticated, ForkEv.createFork GITHUB_REPO_OWNER GITHUB_REPO_NAME,
         ForkEv.repoGet env.userLogin GITHUB_REPO_NAME, ForkEv.delayMs 2000,
         ForkEv.repoGet env.userLogin GITHUB_REPO_NAME, ForkEv.delayMs 2000,
         ForkEv.repoGet env.userLogin GITHUB_REPO_NAME, ForkEv.delayMs 2000,
         ForkEv.repoGet env.userLogin GITHUB_REPO_NAME, ForkEv.delayMs 2000,
         ForkEv.repoGet env.userLogin GITHUB_REPO_NAME, ForkEv.delayMs 2000] ∧
      ((forkRepo env sess).trace.filter isSecretProvisioning) = []) ∧
    (∀ (env : ForkEnv) (sess : SessionData),
      ((forkRepo env sess).trace.filter isRepoGet).length ≤ 5) := by
  constructor
  · intro env sess tok rt sid gt h hg hrt hs hvis
    obtain ⟨g, gh, si, ru⟩ := sess
    dsimp only at h hg hs
    subst h hg hs
    have h0 := hvis 0 (by omega)
    have h1 := hvis 1 (by omega)
    have h2 := hvis 2 (by omega)
    have h3 := hvis 3 (by omega)
    have h4 := hvis 4 (by omega)
    simp [forkRepo, forkPoll, hrt, h0, h1, h2, h3, h4, isSecretProvisioning]
  · intro env sess
    obtain ⟨g, gh, si, ru⟩ := sess
    cases gh with
    | none => simp [forkRepo]
    | some tok =>
      cases g with
      | none => simp [forkRepo]
      | some gt =>
        cases hrt : gt.refresh_token with
        | none => simp [forkRepo, hrt]
        | some rt =>
          cases si with
          | none => simp [forkRepo, hrt]
          | some sid =>
            have hpoll := forkPoll_repoGet_le env 5 0
            cases hv : (forkPoll env 0 5).1 with
            | true =>
              simp only [forkRepo, hrt, hv, Bool.not_true, Bool.false_eq_true, if_false,
                List.filter_append, List.length_append]
              simp [isRepoGet, SECRET_NAMES]
              omega
            | false =>
              simp only [forkRepo, hrt, hv, Bool.not_false, if_true,
                List.filter_append, List.length_append]
              simp [isRepoGet]
              omega

theorem claim6_witness :
    (∀ i, i < 5 → ({ userLogin := "octocat", visible := fun _ => false } : ForkEnv).visible i = false) ∧
    (forkRepo { userLogin := "octocat", visible := fun _ => false }
        { google_tokens := some { refresh_token := some "R" },
          github_token := some "tok", sheet_id := some "S" }).success = false ∧
    (forkRepo { userLogin := "octocat", visible := fun _ => false }
        { google_tokens := some { refresh_token := some "R" },
          github_token := some "tok", sheet_id := some "S" }).message =
      "Could not confirm repository fork. Please check your GitHub account and try again." :=
  ⟨fun _ _ => rfl,
    (claim6_poll_exhaustion.1
        { userLogin := "octocat", visible := fun _ => false }
        { google_tokens := some { refresh_token := some "R" },
          github_token := some "tok", sheet_id := some "S" }
        "tok" "R" "S" { refresh_token := some "R" }
        rfl rfl rfl rfl (fun _ _ => rfl)).1,
    (claim6_poll_exhaustion.1
        { userLogin := "octocat", visible := fun _ => false }
        { google_tokens := some { refresh_token := some "R" },
          github_token := some "tok", sheet_id := some "S" }
        "tok" "R" "S" { refresh_token := some "R" }
        rfl rfl rfl rfl (fun _ _ => rfl)).2.1⟩

/-- C8: `createSheet` is an idempotent find-or-create: two successive
calls against the backend state the first call leaves behind return the
same spreadsheet identifier; when several files carry the canonical name
the first search result wins; and every successful call persists the
returned identifier into the session. -/
theorem claim8_create_sheet_idempotent :
    ∀ (f1 f2 : String) (sess : SessionData) (st : DriveState),
      (createSheet f1 none sess st).success = true ∧
      (createSheet f2 none (createSheet f1 none sess st).sess
          (createSheet f1 none sess st).drive).success = true ∧
      (createSheet f2 none (createSheet f1 none sess st).sess
          (createSheet f1 none sess st).drive).sheetId =
        (createSheet f1 none sess st).sheetId ∧
      (createSheet f1 none sess st).sess.sheet_id =
        (createSheet f1 none sess st).sheetId ∧
      (createSheet f2 none (createSheet f1 none sess st).sess
          (createSheet f1 none sess st).drive).sess.sheet_id =
        (createSheet f2 none (createSheet f1 none sess st).sess
          (createSheet f1 none sess st).drive).sheetId ∧
      (∀ f fs, sheetSearch st = f :: fs →
        (createSheet f1 none sess st).sheetId = some f.id) := by
  intro f1 f2 sess st
  cases hsearch : (sheetSearch st).head? with
  | some f =>
    refine ⟨by simp [createSheet, hsearch], by simp [createSheet, hsearch],
      by simp [createSheet, hsearch], by simp [createSheet, hsearch],
      by simp [createSheet, hsearch], ?_⟩
    intro f' fs hf
    rw [hf] at hsearch
    simp only [List.head?_cons, Option.some.injEq] at hsearch
    subst hsearch
    simp [createSheet, hf]
  | none =>
    have hempty : sheetSearch st = [] := by
      cases h : sheetSearch st with
      | nil => rfl
      | cons a l => rw [h] at hsearch; simp at hsearch
    have hnew : sheetSearch { files := st.files ++ [{ id := f1, name := SHEET_NAME }] } =
        [{ id := f1, name := SHEET_NAME }] := by
      simp only [sheetSearch] at hempty ⊢
      simp [List.filter_append, hempty]
    refine ⟨by simp [createSheet, hsearch], ?_, ?_, by simp [createSheet, hsearch],
      ?_, ?_⟩
    · simp [createSheet, hsearch, hnew]
    · simp [createSheet, hsearch, hnew]
    · simp [createSheet, hsearch, hnew]
    · intro f fs hf
      rw [hempty] at hf
      exact absurd hf (by simp)

theorem claim8_witness :
    sheetSearch { files := [{ id := "A", name := SHEET_NAME },
        { id := "B", name := SHEET_NAME }] } =
      [{ id := "A", name := SHEET_NAME }, { id := "B", name := SHEET_NAME }] ∧
    (createSheet "N1" none {} { files := [{ id := "A", name := SHEET_NAME },
        { id := "B", name := SHEET_NAME }] }).sheetId = some "A" ∧
    (createSheet "N2" none
        (createSheet "N1" none {} { files := [{ id := "A", name := SHEET_NAME },
            { id := "B", name := SHEET_NAME }] }).sess
        (createSheet "N1" none {} { files := [{ id := "A", name := SHEET_NAME },
            { id := "B", name := SHEET_NAME }] }).drive).sheetId =
      (createSheet "N1" none {} { files := [{ id := "A", name := SHEET_NAME },
          { id := "B", name := SHEET_NAME }] }).sheetId :=
  ⟨by decide,
    (claim8_create_sheet_idempotent "N1" "N2" {}
        { files := [{ id := "A", name := SHEET_NAME },
          { id := "B", name := SHEET_NAME }] }).2.2.2.2.2
      { id := "A", name := SHEET_NAME } [{ id := "B", name := SHEET_NAME }] (by decide),
    (claim8_create_sheet_idempotent "N1" "N2" {}
        { files := [{ id := "A", name := SHEET_NAME },
          { id := "B", name := SHEET_NAME }] }).2.2.1⟩

/-- C9 (counterexample): two GitHub authorization-URL constructions with
identical configuration and identical returnTo input but observed at
different timestamps yield different URLs — the call-time timestamp is
embedded as the `state` query parameter. -/
theorem claim9_counterexample :
    getGithubAuthUrl { clientId := some "c", baseUrl := some "x" } 1000 {} "u" =
      Except.ok
        ("https://github.com/login/oauth/authorize?client_id=c&redirect_uri=x%2Fapi%2Fauth%2Fgithub%2Fcallback&scope=repo%2Cadmin%3Arepo_hook&state=1000",
         { redirectUrl := some "u" }) ∧
    getGithubAuthUrl { clientId := some "c", baseUrl := some "x" } 1001 {} "u" =
      Except.ok
        ("https://github.com/login/oauth/authorize?client_id=c&redirect_uri=x%2Fapi%2Fauth%2Fgithub%2Fcallback&scope=repo%2Cadmin%3Arepo_hook&state=1001",
         { redirectUrl := some "u" }) ∧
    ("https://github.com/login/oauth/authorize?client_id=c&redirect_uri=x%2Fapi%2Fauth%2Fgithub%2Fcallback&scope=repo%2Cadmin%3Arepo_hook&state=1000" : String) ≠
      "https://github.com/login/oauth/authorize?client_id=c&redirect_uri=x%2Fapi%2Fauth%2Fgithub%2Fcallback&scope=repo%2Cadmin%3Arepo_hook&state=1001" := by
  refine ⟨rfl, rfl, by decide⟩

/-- C9 (amended): authorization-URL construction is deterministic given
the configuration and the observed timestamp, and requests the fixed
scope set for each provider: the Google request depends only on the
configuration (never on returnTo) and carries exactly `GOOGLE_SCOPES`
with offline access and consent prompt; the GitHub URL depends only on
the configuration and the timestamp, which it embeds as `state`, and
carries exactly the scope string `repo,admin:repo_hook`. -/
theorem claim9_deterministic_fixed_scopes :
    (∀ (cfg : GoogleAuthCfg) (sess1 sess2 : SessionData) (u1 u2 : String)
        (r1 r2 : GoogleAuthRequest) (s1 s2 : SessionData),
      getGoogleAuthUrl cfg sess1 u1 = Except.ok (r1, s1) →
      getGoogleAuthUrl cfg sess2 u2 = Except.ok (r2, s2) →
      r1 = r2 ∧ r1.access_type = "offline" ∧ r1.scope = GOOGLE_SCOPES ∧
        r1.prompt = "consent") ∧
    (∀ (cfg : GithubCfg) (now : Nat) (sess1 sess2 : SessionData) (u1 u2 : String)
        (url1 url2 : String) (s1 s2 : SessionData),
      getGithubAuthUrl cfg now sess1 u1 = Except.ok (url1, s1) →
      getGithubAuthUrl cfg now sess2 u2 = Except.ok (url2, s2) →
      url1 = url2 ∧
      ∃ cid base, cfg.clientId = some cid ∧ cfg.baseUrl = some base ∧
        url1 = "https://github.com/login/oauth/authorize?" ++
          urlSearchParams
            [("client_id", cid),
             ("redirect_uri", base ++ "/api/auth/github/callback"),
             ("scope", "repo,admin:repo_hook"),
             ("state", toString now)]) := by
  constructor
  · intro cfg sess1 sess2 u1 u2 r1 r2 s1 s2 h1 h2
    cases hb : cfg.baseUrl with
    | none => simp [getGoogleAuthUrl, hb] at h1
    | some base =>
      cases hc : cfg.clientId with
      | none => simp [getGoogleAuthUrl, hb, hc] at h1
      | some cid =>
        cases hs : cfg.clientSecret with
        | none => simp [getGoogleAuthUrl, hb, hc, hs] at h1
        | some sec =>
          simp only [getGoogleAuthUrl, hb, hc, hs, Except.ok.injEq, Prod.mk.injEq] at h1 h2
          obtain ⟨hr1, hs1⟩ := h1
          obtain ⟨hr2, hs2⟩ := h2
          subst hr1
          subst hr2
          exact ⟨rfl, rfl, rfl, rfl⟩
  · intro cfg now sess1 sess2 u1 u2 url1 url2 s1 s2 h1 h2
    cases hc : cfg.clientId with
    | none => simp [getGithubAuthUrl, hc] at h1
    | some cid =>
      cases hb : cfg.baseUrl with
      | none => simp [getGithubAuthUrl, hc, hb] at h1
      | some base =>
        simp only [getGithubAuthUrl, hc, hb, Except.ok.injEq, Prod.mk.injEq] at h1 h2
        obtain ⟨hu1, _⟩ := h1
        obtain ⟨hu2, _⟩ := h2
        subst hu1 hu2
        exact ⟨rfl, cid, base, rfl, rfl, rfl⟩

theorem claim9_deterministic_fixed_scopes_witness :
    ∃ (r : GoogleAuthRequest) (s s' : SessionData) (url : String),
      getGoogleAuthUrl
          { clientId := some "gc", clientSecret := some "gs", baseUrl := some "x" }
          {} "u" = Except.ok (r, s) ∧
      r.scope = GOOGLE_SCOPES ∧
      getGithubAuthUrl { clientId := some "c", baseUrl := some "x" } 1000 {} "u" =
        Except.ok (url, s') ∧
      url = "https://github.com/login/oauth/authorize?" ++
        urlSearchParams
          [("client_id", "c"), ("redirect_uri", "x/api/auth/github/callback"),
           ("scope", "repo,admin:repo_hook"), ("state", toString 1000)] := by
  refine ⟨_, _, _, _, rfl, ?_, rfl, ?_⟩
  · exact (claim9_deterministic_fixed_scopes.1
      { clientId := some "gc", clientSecret := some "gs", baseUrl := some "x" }
      {} {} "u" "u" _ _ _ _ rfl rfl).2.2.1
  · exact ((claim9_deterministic_fixed_scopes.2
      { clientId := some "c", baseUrl := some "x" } 1000
      {} {} "u" "u" _ _ _ _ rfl rfl).2.choose_spec.choose_spec.2.2).symm ▸ rfl

/-- C10: `getGoogleApiClients` treats credentials with no stored expiry
instant as already expired — it attempts the refresh round trip — and it
skips the refresh exactly when the stored expiry instant lies strictly in
the future of the current time. -/
theorem claim10_missing_expiry_forces_refresh :
    ∀ (cfg : GoogleCfg) (now : Int) (rr : Option GTokens) (sess : SessionData)
      (t : GTokens),
      sess.google_tokens = some t →
      cfg.clientId.isNone = false → cfg.clientSecret.isNone = false →
      0 ≤ now →
      ((t.expiry_date = none →
        (getGoogleApiClients cfg now rr sess).refreshAttempted = true) ∧
       ((getGoogleApiClients cfg now rr sess).refreshAttempted = false ↔
        ∃ e, t.expiry_date = some e ∧ now < e)) := by
  intro cfg now rr sess t hg hci hcs hnow
  obtain ⟨g, gh, si, ru⟩ := sess
  dsimp only at hg
  subst hg
  cases hexp : t.expiry_date with
  | none =>
    have hexpired : tokenIsExpired now t = true := by
      simp [tokenIsExpired, hexp, hnow]
    constructor
    · intro _
      cases rr <;> simp [getGoogleApiClients, hci, hcs, hexpired]
    · constructor
      · intro hfalse
        exfalso
        cases rr <;> simp [getGoogleApiClients, hci, hcs, hexpired] at hfalse
      · rintro ⟨e, he, _⟩
        exact absurd he (by simp)
  | some e =>
    constructor
    · intro h
      exact absurd h (by simp)
    · by_cases he : e ≤ now
      · have hexpired : tokenIsExpired now t = true := by
          simp [tokenIsExpired, hexp, he]
        constructor
        · intro hfalse
          exfalso
          cases rr <;> simp [getGoogleApiClients, hci, hcs, hexpired] at hfalse
        · rintro ⟨e', he', hlt⟩
          simp only [Option.some.injEq] at he'
          subst he'
          exfalso
          omega
      · have hfresh : tokenIsExpired now t = false := by
          simp [tokenIsExpired, hexp]
          omega
        constructor
        · intro _
          exact ⟨e, rfl, by omega⟩
        · intro _
          simp [getGoogleApiClients, hci, hcs, hfresh]

theorem claim10_witness :
    (({ google_tokens := some { expiry_date := none } } : SessionData).google_tokens =
      some ({ expiry_date := none } : GTokens)) ∧
    (getGoogleApiClients { clientId := some "gc", clientSecret := some "gs" } 1700000000000
        none { google_tokens := some { expiry_date := none } }).refreshAttempted = true :=
  ⟨rfl,
    (claim10_missing_expiry_forces_refresh
      { clientId := some "gc", clientSecret := some "gs" } 1700000000000 none
      { google_tokens := some { expiry_date := none } } { expiry_date := none }
      rfl rfl rfl (by omega)).1 rfl⟩

end AutoTubeFlow
